import Mathlib

/-!
Shallow embedding of the SyncLab dubbing-engine backend (src/index.js):
the in-memory job record store, the pipeline stage adapters with their
fallback logic, the pipeline orchestrator, subtitle generation, and the
deletion/cleanup path.

External processes and HTTP providers are modelled by an `Env` oracle that
fixes, for one pipeline run, whether each external capability can be
launched, its exit status, and the values successful providers return.
Each `spawn` is modelled as producing exactly one outcome: a launch
failure (the process `error` event) or a `close` event with an exit code.
`Date.now()` is abstracted as a monotone counter.  Filesystem writes that
never influence the job record are modelled as pure values; the temp-file
cleanup models the filesystem as the list of existing paths.
-/

namespace SyncLab

/-- Job status values: `'queued' | 'running' | 'done' | 'error'`. -/
inductive Status where
  | queued
  | running
  | done
  | error
  deriving DecidableEq

/-- The `outputs` mapping of a job: artifact kind to file path.
An absent key is `none`; `createJob` starts with the empty object. -/
structure Outputs where
  video : Option String := none
  srt : Option String := none
  audio : Option String := none
  deriving DecidableEq

/-- Submission metadata captured by `createJob` in the POST handler. -/
structure JobMeta where
  videoPath : String := ""
  langFrom : String := ""
  langTo : String := ""
  voiceMode : String := ""
  quality : String := ""
  syncConfidence : ℚ := 0
  filename : String := ""
  deriving DecidableEq

/-- A job record as created by `createJob` in src/index.js. -/
structure Job where
  id : String
  status : Status
  stage : Option String
  progress : Nat
  message : String
  meta : JobMeta
  createdAt : Nat
  updatedAt : Nat
  outputs : Outputs
  deriving DecidableEq

/-- A partial update object passed to `updateJob`: the fields the callers
in src/index.js ever put into the `updates` argument.  `none` means the
field is absent from the update object. -/
structure JobUpdate where
  status : Option Status := none
  stage : Option String := none
  progress : Option Nat := none
  message : Option String := none
  outputs : Option Outputs := none
  deriving DecidableEq

/-- `Object.assign(job, updates, { updatedAt: Date.now() })`: merge the
present fields of the update into the job and refresh `updatedAt`. -/
def applyUpdate (j : Job) (u : JobUpdate) (now : Nat) : Job :=
  { id := j.id
    status := u.status.getD j.status
    stage := match u.stage with
      | some s => some s
      | none => j.stage
    progress := u.progress.getD j.progress
    message := u.message.getD j.message
    meta := j.meta
    createdAt := j.createdAt
    updatedAt := now
    outputs := u.outputs.getD j.outputs }

/-- The in-memory job store `const jobs = new Map()`, as an association
list in insertion order (a JS `Map` has unique keys and preserves
insertion order). -/
abbrev Store : Type := List (String × Job)

/-- The job object built by `createJob(id, meta)`. -/
def createJob (id : String) (m : JobMeta) (now : Nat) : Job :=
  { id := id
    status := .queued
    stage := none
    progress := 0
    message := ""
    meta := m
    createdAt := now
    updatedAt := now
    outputs := {} }

/-- `jobs.get(id)`. -/
def lookupJob (store : Store) (id : String) : Option Job :=
  match store with
  | [] => none
  | p :: rest => if p.1 = id then some p.2 else lookupJob rest id

/-- `updateJob(id, updates)`: no-op when `id` is unknown, otherwise
`Object.assign` the updates onto the stored job.  Keys are unique in a JS
`Map`, so only the first matching entry is touched. -/
def updateJob (store : Store) (id : String) (u : JobUpdate) (now : Nat) : Store :=
  match store with
  | [] => []
  | p :: rest =>
      if p.1 = id then (p.1, applyUpdate p.2 u now) :: rest
      else p :: updateJob rest id u now

/-- `jobs.delete(id)`. -/
def storeDelete (store : Store) (id : String) : Store :=
  match store with
  | [] => []
  | p :: rest => if p.1 = id then rest else p :: storeDelete rest id

/-- `jobs.size` (also the length of the `GET /api/jobs` listing). -/
def storeCount (store : Store) : Nat :=
  match store with
  | [] => 0
  | _ :: rest => storeCount rest + 1

/-- One summary row of `GET /api/jobs`:
`{ id, status, progress, filename, createdAt }`. -/
structure JobSummary where
  id : String
  status : Status
  progress : Nat
  filename : String
  createdAt : Nat
  deriving DecidableEq

/-- `Array.from(jobs.values()).map(...)` in the `GET /api/jobs` route. -/
def listJobs (store : Store) : List JobSummary :=
  store.map fun p =>
    { id := p.2.id
      status := p.2.status
      progress := p.2.progress
      filename := p.2.meta.filename
      createdAt := p.2.createdAt }

/-- A timestamped transcript segment as consumed by `generateSrt`
(the unused `id` field of whisper segments is dropped). -/
structure Segment where
  start : ℚ
  stop : ℚ
  text : String
  deriving DecidableEq

/-- A transcript as produced by `transcribeAudio` (the unused `language`
field is dropped; `segments` is `none` when the JSON had no such key). -/
structure Transcript where
  text : String
  segments : Option (List Segment)
  deriving DecidableEq

/-- A translated transcript: `{ ...transcript, translatedText }`. -/
structure Translated where
  text : String
  segments : Option (List Segment)
  translatedText : Option String
  deriving DecidableEq

/-- `getMockTranscript()` from src/index.js. -/
def getMockTranscript : Transcript :=
  { text := "Hello, welcome to this demonstration of the SyncLab dubbing engine."
    segments := some
      [ { start := 0, stop := 5/2, text := "Hello, welcome to this demonstration" }
      , { start := 5/2, stop := 5, text := "of the SyncLab dubbing engine." } ] }

/-- Environment oracle for one pipeline run: fixes the outcome of every
external process spawn and provider call, and the configured environment
variables.  A spawn either fails to launch (`...Launches = false`, the
`error` event) or closes with an exit code / outcome. -/
structure Env where
  /-- `spawn('ffmpeg', ...)` in `extractAudio` can be launched. -/
  extractLaunches : Bool
  /-- exit code of the audio-extraction ffmpeg process. -/
  extractExit : Nat
  /-- `spawn('ffmpeg', ...)` in `extractFrames` can be launched. -/
  framesLaunches : Bool
  /-- exit code of the frame-extraction ffmpeg process. -/
  framesExit : Nat
  /-- `spawn('python3', ['-m','whisper',...])` can be launched. -/
  whisperLaunches : Bool
  /-- the whisper process exits with code 0. -/
  whisperExitOk : Bool
  /-- reading and parsing the whisper JSON output file succeeds. -/
  whisperParseOk : Bool
  /-- the transcript parsed from the whisper JSON output file. -/
  whisperResult : Transcript
  /-- `process.env.LIBRETRANSLATE_URL`. -/
  libreUrl : Option String
  /-- the LibreTranslate fetch + JSON decode completes without throwing. -/
  libreOk : Bool
  /-- `data.translatedText` returned by LibreTranslate. -/
  libreText : String
  /-- `process.env.DEEPL_API_KEY`. -/
  deeplKey : Option String
  /-- the DeepL fetch + JSON decode completes without throwing. -/
  deeplOk : Bool
  /-- `data.translations[0].text` returned by DeepL. -/
  deeplText : String
  /-- `process.env.XTTS_SERVER_URL`. -/
  xttsUrl : Option String
  /-- the XTTS request completes with `res.ok`. -/
  xttsOk : Bool
  /-- `process.env.ELEVENLABS_API_KEY`. -/
  elevenKey : Option String
  /-- the ElevenLabs request completes with `res.ok`. -/
  elevenOk : Bool
  /-- `fs.existsSync(modelPath)`: the Wav2Lip checkpoint is present. -/
  wav2lipModel : Bool
  /-- `spawn('python3', ['inference.py',...])` can be launched. -/
  wav2lipLaunches : Bool
  /-- the Wav2Lip process exits with code 0. -/
  wav2lipExitOk : Bool
  /-- `spawn('ffmpeg', ...)` in `mergeAudioOnly` can be launched. -/
  mergeLaunches : Bool
  /-- the audio-merge ffmpeg process exits with code 0. -/
  mergeExitOk : Bool
  /-- `spawn('ffmpeg', ...)` in `finalRender` can be launched. -/
  renderLaunches : Bool
  /-- the final-render ffmpeg process exits with code 0. -/
  renderExitOk : Bool

/-- Result of one pipeline stage: the `updateJob` calls it issued, in
order, and its return value (or rejection reason). -/
structure StepOut (α : Type) where
  updates : List JobUpdate
  result : α

/-- The entry update of `extractAudio`. -/
def extractEntryUpd : JobUpdate :=
  { stage := some "pill-extract", progress := some 8
    message := some "Extracting audio from video..." }

/-- `updateJob(jobId, { progress: n })`. -/
def progUpd (n : Nat) : JobUpdate := { progress := some n }

/-- Step 1 — `extractAudio(videoPath, jobId)`. -/
def extractAudio (env : Env) (videoPath jobId : String) :
    StepOut (Except String String) :=
  let audioPath := "temp/" ++ jobId ++ "_audio.wav"
  let _ := videoPath
  if env.extractLaunches then
    if env.extractExit = 0 then
      { updates := [extractEntryUpd, progUpd 15], result := .ok audioPath }
    else
      { updates := [extractEntryUpd]
        result := .error ("ffmpeg audio extraction failed (code " ++
          toString env.extractExit ++ ")") }
  else
    { updates := [extractEntryUpd]
      result := .error "ffmpeg not found — please install ffmpeg" }

/-- The entry update of `extractFrames`. -/
def framesEntryUpd : JobUpdate :=
  { stage := some "pill-extract", progress := some 18
    message := some "Extracting video frames..." }

/-- Step 2 — `extractFrames(videoPath, jobId)`.  Its rejection is caught
by the orchestrator (`.catch(() => null)`). -/
def extractFrames (env : Env) (videoPath jobId : String) :
    StepOut (Except String String) :=
  let framesDir := "temp/" ++ jobId ++ "_frames"
  let _ := videoPath
  { updates := [framesEntryUpd]
    result :=
      if env.framesLaunches then
        if env.framesExit = 0 then .ok framesDir
        else .error ("Frame extraction failed (code " ++ toString env.framesExit ++ ")")
      else .error "ffmpeg not found" }

/-- The entry update of `transcribeAudio`. -/
def transcribeEntryUpd : JobUpdate :=
  { stage := some "pill-transcribe", progress := some 28
    message := some "Running speech recognition..." }

/-- Step 3 — `transcribeAudio(audioPath, langCode, jobId)`: every failure
mode (whisper missing, non-zero exit, unparsable JSON) resolves with the
mock transcript instead of rejecting. -/
def transcribeAudio (env : Env) (audioPath langCode jobId : String) :
    StepOut Transcript :=
  let _ := audioPath
  let _ := langCode
  let _ := jobId
  if env.whisperLaunches then
    if env.whisperExitOk then
      if env.whisperParseOk then
        { updates := [transcribeEntryUpd, progUpd 40], result := env.whisperResult }
      else
        { updates := [transcribeEntryUpd], result := getMockTranscript }
    else
      { updates := [transcribeEntryUpd], result := getMockTranscript }
  else
    { updates := [transcribeEntryUpd], result := getMockTranscript }

/-- The entry update of `translateText`. -/
def translateEntryUpd (fromLang toLang : String) : JobUpdate :=
  { stage := some "pill-translate", progress := some 48
    message := some ("Translating " ++ fromLang ++ " → " ++ toLang ++ "...") }

/-- Step 4 — `translateText(transcript, fromLang, toLang, jobId)`:
LibreTranslate when configured, then DeepL when configured, each failure
caught and falling through; otherwise the deterministic placeholder. -/
def translateText (env : Env) (transcript : Transcript)
    (fromLang toLang : String) : StepOut Translated :=
  let entry := translateEntryUpd fromLang toLang
  let libre : Option Translated :=
    match env.libreUrl with
    | some _ =>
        if env.libreOk then
          some { text := transcript.text, segments := transcript.segments
                 translatedText := some env.libreText }
        else none
    | none => none
  match libre with
  | some t => { updates := [entry, progUpd 58], result := t }
  | none =>
    let deepl : Option Translated :=
      match env.deeplKey with
      | some _ =>
          if env.deeplOk then
            some { text := transcript.text, segments := transcript.segments
                   translatedText := some env.deeplText }
          else none
      | none => none
    match deepl with
    | some t => { updates := [entry, progUpd 58], result := t }
    | none =>
        { updates := [entry, progUpd 58]
          result :=
            { text := transcript.text, segments := transcript.segments
              translatedText :=
                some ("[Translated to " ++ toLang ++ "]: " ++ transcript.text) } }

/-- The entry update of `synthesizeVoice`. -/
def synthEntryUpd : JobUpdate :=
  { stage := some "pill-synth", progress := some 65
    message := some "Synthesizing dubbed voice..." }

/-- Step 5 — `synthesizeVoice(translated, referenceAudioPath, toLang,
voiceMode, jobId)`: XTTS when cloning is requested and configured, then
ElevenLabs when configured; on total failure the original audio track is
reused.  Never rejects. -/
def synthesizeVoice (env : Env) (translated : Translated)
    (referenceAudioPath toLang voiceMode jobId : String) : StepOut String :=
  let _ := translated
  let _ := toLang
  let outputPath := "temp/" ++ jobId ++ "_dubbed.wav"
  if voiceMode = "clone" ∧ env.xttsUrl.isSome then
    if env.xttsOk then
      { updates := [synthEntryUpd, progUpd 75], result := outputPath }
    else
      if env.elevenKey.isSome ∧ env.elevenOk then
        { updates := [synthEntryUpd, progUpd 75]
          result := outputPath.replace ".wav" ".mp3" }
      else
        { updates := [synthEntryUpd, progUpd 75], result := referenceAudioPath }
  else
    if env.elevenKey.isSome ∧ env.elevenOk then
      { updates := [synthEntryUpd, progUpd 75]
        result := outputPath.replace ".wav" ".mp3" }
    else
      { updates := [synthEntryUpd, progUpd 75], result := referenceAudioPath }

/-- The entry update of `mergeAudioOnly`. -/
def mergeEntryUpd : JobUpdate :=
  { stage := some "pill-lipsync", progress := some 86
    message := some "Merging dubbed audio with video..." }

/-- Fallback — `mergeAudioOnly(videoPath, audioPath, outputPath, jobId)`.
On `close` the progress-90 update is issued before the exit code is
inspected; a launch failure rejects with no further update. -/
def mergeAudioOnly (env : Env) (videoPath audioPath outputPath : String) :
    StepOut (Except String String) :=
  let _ := videoPath
  let _ := audioPath
  if env.mergeLaunches then
    { updates := [mergeEntryUpd, progUpd 90]
      result := if env.mergeExitOk then .ok outputPath else .error "Audio merge failed" }
  else
    { updates := [mergeEntryUpd], result := .error "ffmpeg not found" }

/-- The entry update of `runLipSync`. -/
def lipsyncEntryUpd : JobUpdate :=
  { stage := some "pill-lipsync", progress := some 82
    message := some "Applying Wav2Lip lip synchronization..." }

/-- Step 6 — `runLipSync(videoPath, dubbedAudioPath, quality, jobId)`:
model absent ⇒ progress 88 then audio-only merge; launch failure or
non-zero exit ⇒ audio-only merge; success ⇒ progress 90. -/
def runLipSync (env : Env) (videoPath dubbedAudioPath quality jobId : String) :
    StepOut (Except String String) :=
  let _ := quality
  let outputPath := "temp/" ++ jobId ++ "_lipsync.mp4"
  if env.wav2lipModel then
    if env.wav2lipLaunches then
      if env.wav2lipExitOk then
        { updates := [lipsyncEntryUpd, progUpd 90], result := .ok outputPath }
      else
        let m := mergeAudioOnly env videoPath dubbedAudioPath outputPath
        { updates := lipsyncEntryUpd :: m.updates, result := m.result }
    else
      let m := mergeAudioOnly env videoPath dubbedAudioPath outputPath
      { updates := lipsyncEntryUpd :: m.updates, result := m.result }
  else
    let m := mergeAudioOnly env videoPath dubbedAudioPath outputPath
    { updates := lipsyncEntryUpd :: progUpd 88 :: m.updates, result := m.result }

/-- The entry update of `finalRender`. -/
def renderEntryUpd : JobUpdate :=
  { stage := some "pill-render", progress := some 94
    message := some "Encoding final output..." }

/-- The terminal update issued by `finalRender` on exit code 0. -/
def renderDoneUpd (finalPath : String) : JobUpdate :=
  { status := some .done, stage := some "complete", progress := some 100
    message := some "Dubbing complete!"
    outputs := some { video := some finalPath } }

/-- The terminal update issued by `finalRender` when ffmpeg cannot be
launched: the upstream intermediate becomes the deliverable. -/
def renderFallbackUpd (lipsyncPath : String) : JobUpdate :=
  { status := some .done, stage := some "complete", progress := some 100
    message := some "Demo complete (ffmpeg not installed)"
    outputs := some { video := some lipsyncPath } }

/-- Step 7 — `finalRender(lipsyncPath, jobId)`. -/
def finalRender (env : Env) (lipsyncPath jobId : String) :
    StepOut (Except String String) :=
  let finalPath := "outputs/" ++ jobId ++ "_dubbed_final.mp4"
  if env.renderLaunches then
    if env.renderExitOk then
      { updates := [renderEntryUpd, renderDoneUpd finalPath], result := .ok finalPath }
    else
      { updates := [renderEntryUpd], result := .error "Final render failed" }
  else
    { updates := [renderEntryUpd, renderFallbackUpd lipsyncPath]
      result := .ok lipsyncPath }

/-- `Math.floor` on an exact rational. -/
def jsFloor (x : ℚ) : ℤ := x.num.fdiv x.den

/-- JS number truncation toward zero, used by the `%` operator. -/
def jsTrunc (x : ℚ) : ℤ := if x < 0 then -jsFloor (-x) else jsFloor x

/-- The JS remainder operator `x % y` (sign of the dividend). -/
def jsMod (x y : ℚ) : ℚ := x - y * (jsTrunc (x / y) : ℚ)

/-- `Math.round`: nearest integer, ties toward positive infinity. -/
def jsRound (x : ℚ) : ℤ := jsFloor (x + 1/2)

/-- `String.prototype.padStart(len, c)`. -/
def padStart (s : String) (len : Nat) (c : Char) : String :=
  String.mk (List.replicate (len - s.length) c) ++ s

/-- `pad(n)` — two-digit zero padding. -/
def pad (n : ℤ) : String := padStart (toString n) 2 '0'

/-- `fmtSrtTime(sec)` — `HH:MM:SS,mmm`. -/
def fmtSrtTime (sec : ℚ) : String :=
  let h := jsFloor (sec / 3600)
  let m := jsFloor (jsMod sec 3600 / 60)
  let s := jsFloor (jsMod sec 60)
  let ms := jsRound (jsMod sec 1 * 1000)
  pad h ++ ":" ++ pad m ++ ":" ++ pad s ++ "," ++ padStart (toString ms) 3 '0'

/-- The subtitle text `generateSrt` writes: one numbered cue per segment,
with the single default segment when `segments` is absent.  A present but
empty segment list is kept as-is (an empty JS array is truthy). -/
def generateSrtContent (translated : Translated) : String :=
  let segments := translated.segments.getD
    [{ start := 0, stop := 5, text := translated.translatedText.getD "" }]
  String.intercalate "\n" <| segments.mapIdx fun i s =>
    toString (i + 1) ++ "\n" ++ fmtSrtTime s.start ++ " --> " ++
      fmtSrtTime s.stop ++ "\n" ++ s.text ++ "\n"

/-- `generateSrt(translated, jobId)`: the returned path and the content
written to it. -/
def generateSrt (translated : Translated) (jobId : String) : String × String :=
  ("outputs/" ++ jobId ++ "_subtitles.srt", generateSrtContent translated)

/-- `updateJob(jobId, { status: 'running' })` at pipeline start. -/
def runningUpd : JobUpdate := { status := some .running }

/-- The update issued in the orchestrator's `catch` block. -/
def errorUpd (msg : String) : JobUpdate :=
  { status := some .error, message := some msg }

/-- The orchestrator's final success update: note it replaces `outputs`
wholesale with the three artifact references. -/
def finishUpd (finalPath srtPath audioPath : String) : JobUpdate :=
  { status := some .done, progress := some 100
    message := some "Dubbing complete!"
    outputs := some { video := some finalPath, srt := some srtPath
                      audio := some audioPath } }

/-- `runPipeline(jobId, videoPath, { langFrom, langTo, voiceMode,
quality })`: the sequence of `updateJob` calls one run issues against its
job record, for a given environment oracle. -/
def runPipeline (env : Env) (jobId videoPath langFrom langTo voiceMode quality : String) :
    List JobUpdate :=
  let s1 := extractAudio env videoPath jobId
  runningUpd ::
    match s1.result with
    | .error e => s1.updates ++ [errorUpd e]
    | .ok audioPath =>
      let s2 := extractFrames env videoPath jobId
      let s3 := transcribeAudio env audioPath langFrom jobId
      let s4 := translateText env s3.result langFrom langTo
      let s5 := synthesizeVoice env s4.result audioPath langTo voiceMode jobId
      let s6 := runLipSync env videoPath s5.result quality jobId
      match s6.result with
      | .error e =>
          s1.updates ++ s2.updates ++ s3.updates ++ s4.updates ++ s5.updates ++
            s6.updates ++ [errorUpd e]
      | .ok lipsyncPath =>
        let s7 := finalRender env lipsyncPath jobId
        match s7.result with
        | .error e =>
            s1.updates ++ s2.updates ++ s3.updates ++ s4.updates ++ s5.updates ++
              s6.updates ++ s7.updates ++ [errorUpd e]
        | .ok finalPath =>
            s1.updates ++ s2.updates ++ s3.updates ++ s4.updates ++ s5.updates ++
              s6.updates ++ s7.updates ++
              [finishUpd finalPath (generateSrt s4.result jobId).1 s5.result]

/-- Apply one `updateJob` call to the job record; `Date.now()` is
abstracted as a counter that advances with every update. -/
def stepJob (j : Job) (u : JobUpdate) : Job := applyUpdate j u (j.updatedAt + 1)

/-- The sequence of states of one job record, from creation through every
`updateJob` call its pipeline run issues. -/
def jobTrace (env : Env) (jobId videoPath langFrom langTo voiceMode quality : String)
    (m : JobMeta) (t0 : Nat) : List Job :=
  List.scanl stepJob (createJob jobId m t0)
    (runPipeline env jobId videoPath langFrom langTo voiceMode quality)

/-- The job record's state after its pipeline run has finished. -/
def finalJobState (env : Env) (jobId videoPath langFrom langTo voiceMode quality : String)
    (m : JobMeta) (t0 : Nat) : Job :=
  List.foldl stepJob (createJob jobId m t0)
    (runPipeline env jobId videoPath langFrom langTo voiceMode quality)

/-- The filesystem as the list of currently existing paths. -/
abbrev Fs : Type := List String

/-- `fs.unlinkSync` / `fs.rmSync`: throws when the path does not exist. -/
def unlinkSync (fs : Fs) (p : String) : Except String Fs :=
  if p ∈ fs then .ok (fs.erase p) else .error ("ENOENT: " ++ p)

/-- `try { if (fs.existsSync(p)) fs.unlinkSync(p) } catch {}`. -/
def tryUnlinkE (fs : Fs) (p : String) : Except String Fs :=
  match (if p ∈ fs then unlinkSync fs p else .ok fs) with
  | .ok fs2 => .ok fs2
  | .error _ => .ok fs

/-- `cleanupTemp(jobId)`: best-effort removal of the four temp artifacts;
every individual failure is swallowed, so the whole call returns
normally (never raises) on every filesystem state. -/
def cleanupTempE (fs : Fs) (jobId : String) : Except String Fs :=
  match tryUnlinkE fs ("temp/" ++ jobId ++ "_audio.wav") with
  | .error e => .error e
  | .ok fs1 =>
    match tryUnlinkE fs1 ("temp/" ++ jobId ++ "_dubbed.wav") with
    | .error e => .error e
    | .ok fs2 =>
      match tryUnlinkE fs2 ("temp/" ++ jobId ++ "_lipsync.mp4") with
      | .error e => .error e
      | .ok fs3 => tryUnlinkE fs3 ("temp/" ++ jobId ++ "_frames")

/-- The outcome of `DELETE /api/dub/:jobId`. -/
inductive DeleteResult where
  | notFound
  | deleted
  deriving DecidableEq

/-- `DELETE /api/dub/:jobId`: 404 when the id is unknown, otherwise
synchronous `cleanupTemp` then `jobs.delete`. -/
def deleteDub (store : Store) (fs : Fs) (jobId : String) :
    Store × Fs × DeleteResult :=
  match lookupJob store jobId with
  | none => (store, fs, .notFound)
  | some _ =>
      let fs2 := match cleanupTempE fs jobId with
        | .ok f => f
        | .error _ => fs
      (storeDelete store jobId, fs2, .deleted)

/-! ### Shape of the update scripts a pipeline run can issue -/

/-- A mid-pipeline update: leaves `status` alone and never writes
progress 100. -/
def MidUpd (u : JobUpdate) : Prop :=
  u.status = none ∧ u.progress.getD 0 < 100

/-- A terminal update issued inside `finalRender`: `done`, progress 100,
stage `complete`. -/
def RenderDoneShape (u : JobUpdate) : Prop :=
  u.status = some .done ∧ u.progress = some 100 ∧ u.stage = some "complete"

/-- The orchestrator's closing success update: `done`, progress 100, no
stage field. -/
def FinishShape (u : JobUpdate) : Prop :=
  u.status = some .done ∧ u.progress = some 100 ∧ u.stage = none

/-- The orchestrator's `catch` update: `error`, no progress, no stage. -/
def ErrShape (u : JobUpdate) : Prop :=
  u.status = some .error ∧ u.progress = none ∧ u.stage = none

/-- The terminal section of an update script. -/
def GoodTail (tail : List JobUpdate) : Prop :=
  (∃ u, tail = [u] ∧ ErrShape u) ∨
  (∃ u v, tail = [u, v] ∧ RenderDoneShape u ∧ FinishShape v)

/-- Every update script a pipeline run can issue: the `running` update,
then mid-pipeline updates, then a terminal section. -/
def GoodScript (us : List JobUpdate) : Prop :=
  ∃ mids tail, us = runningUpd :: (mids ++ tail) ∧
    (∀ u ∈ mids, MidUpd u) ∧ GoodTail tail

/-- The per-transition relation of the job status machine:
`queued → running → {done, error}`, stuttering allowed, and a terminal
status freezes both `status` and `stage`. -/
def statusStep (x y : Job) : Prop :=
  (y.status = x.status ∨
    (x.status = .queued ∧ y.status = .running) ∨
    (x.status = .running ∧ (y.status = .done ∨ y.status = .error))) ∧
  ((x.status = .done ∨ x.status = .error) → (y.status = x.status ∧ y.stage = x.stage))

/-- The audio path `extractAudio` resolves with on success. -/
def pipelineAudioPath (jobId : String) : String := "temp/" ++ jobId ++ "_audio.wav"

/-- The dubbed-audio path the orchestrator threads from `synthesizeVoice`
into `runLipSync` (and records as the `audio` artifact), reconstructed
from the environment oracle. -/
def pipelineDubbedAudio (env : Env) (jobId langFrom langTo voiceMode : String) : String :=
  (synthesizeVoice env
    (translateText env
      (transcribeAudio env (pipelineAudioPath jobId) langFrom jobId).result
      langFrom langTo).result
    (pipelineAudioPath jobId) langTo voiceMode jobId).result

/-- A run in which every external capability is present and succeeds,
with no translation or TTS provider configured. -/
def envAllOk : Env :=
  { extractLaunches := true, extractExit := 0
    framesLaunches := true, framesExit := 0
    whisperLaunches := true, whisperExitOk := true, whisperParseOk := true
    whisperResult := getMockTranscript
    libreUrl := none, libreOk := false, libreText := ""
    deeplKey := none, deeplOk := false, deeplText := ""
    xttsUrl := none, xttsOk := false
    elevenKey := none, elevenOk := false
    wav2lipModel := true, wav2lipLaunches := true, wav2lipExitOk := true
    mergeLaunches := true, mergeExitOk := true
    renderLaunches := true, renderExitOk := true }

/-- Like `envAllOk`, but the Wav2Lip model checkpoint is absent, so
`runLipSync` takes the audio-only merge fallback. -/
def envModelMissing : Env := { envAllOk with wav2lipModel := false }

/-- Like `envAllOk`, but the audio-extraction ffmpeg cannot be launched. -/
def envNoFfmpegExtract : Env := { envAllOk with extractLaunches := false }

/-- Like `envAllOk`, but the final-render ffmpeg cannot be launched. -/
def envNoRender : Env := { envAllOk with renderLaunches := false }

/-- A one-job demo store for concrete instantiations. -/
def demoJobA : Job := createJob "a" {} 0

/-- A store holding just `demoJobA` under its id. -/
def demoStore : Store := [("a", demoJobA)]

/-- A demo partial update touching only `progress`. -/
def demoUpd : JobUpdate := { progress := some 50 }

lemma extractAudio_mid (env : Env) (v j : String) :
    ∀ u ∈ (extractAudio env v j).updates, MidUpd u := by
  by_cases h1 : env.extractLaunches <;> by_cases h2 : env.extractExit = 0 <;>
    simp [extractAudio, h1, h2, MidUpd, extractEntryUpd, progUpd]

lemma extractFrames_mid (env : Env) (v j : String) :
    ∀ u ∈ (extractFrames env v j).updates, MidUpd u := by
  simp [extractFrames, MidUpd, framesEntryUpd]

lemma transcribeAudio_mid (env : Env) (a l j : String) :
    ∀ u ∈ (transcribeAudio env a l j).updates, MidUpd u := by
  by_cases h1 : env.whisperLaunches <;> by_cases h2 : env.whisperExitOk <;>
    by_cases h3 : env.whisperParseOk <;>
    simp [transcribeAudio, h1, h2, h3, MidUpd, transcribeEntryUpd, progUpd]

lemma translateText_updates (env : Env) (tr : Transcript) (f t : String) :
    (translateText env tr f t).updates = [translateEntryUpd f t, progUpd 58] := by
  cases h1 : env.libreUrl <;> by_cases h2 : env.libreOk <;>
    cases h3 : env.deeplKey <;> by_cases h4 : env.deeplOk <;>
    simp [translateText, h1, h2, h3, h4]

lemma translateText_mid (env : Env) (tr : Transcript) (f t : String) :
    ∀ u ∈ (translateText env tr f t).updates, MidUpd u := by
  rw [translateText_updates]
  simp [MidUpd, translateEntryUpd, progUpd]

lemma synthesizeVoice_updates (env : Env) (tr : Translated) (r t vm j : String) :
    (synthesizeVoice env tr r t vm j).updates = [synthEntryUpd, progUpd 75] := by
  by_cases h1 : vm = "clone" ∧ env.xttsUrl.isSome <;> by_cases h2 : env.xttsOk <;>
    by_cases h3 : env.elevenKey.isSome ∧ env.elevenOk <;>
    simp [synthesizeVoice, h1, h2, h3]

lemma synthesizeVoice_mid (env : Env) (tr : Translated) (r t vm j : String) :
    ∀ u ∈ (synthesizeVoice env tr r t vm j).updates, MidUpd u := by
  rw [synthesizeVoice_updates]
  simp [MidUpd, synthEntryUpd, progUpd]

lemma mergeAudioOnly_mid (env : Env) (v a o : String) :
    ∀ u ∈ (mergeAudioOnly env v a o).updates, MidUpd u := by
  by_cases h1 : env.mergeLaunches <;>
    simp [mergeAudioOnly, h1, MidUpd, mergeEntryUpd, progUpd]

lemma runLipSync_mid (env : Env) (v d q j : String) :
    ∀ u ∈ (runLipSync env v d q j).updates, MidUpd u := by
  by_cases h1 : env.wav2lipModel <;> by_cases h2 : env.wav2lipLaunches <;>
    by_cases h3 : env.wav2lipExitOk <;> by_cases h4 : env.mergeLaunches <;>
    simp [runLipSync, mergeAudioOnly, h1, h2, h3, h4, MidUpd,
      lipsyncEntryUpd, mergeEntryUpd, progUpd]

lemma finalRender_shape (env : Env) (l j : String) :
    (∃ e, (finalRender env l j).result = Except.error e ∧
      (finalRender env l j).updates = [renderEntryUpd]) ∨
    (∃ p d, (finalRender env l j).result = Except.ok p ∧
      (finalRender env l j).updates = [renderEntryUpd, d] ∧ RenderDoneShape d) := by
  by_cases h1 : env.renderLaunches <;> by_cases h2 : env.renderExitOk <;>
    simp [finalRender, h1, h2] <;>
    exact ⟨rfl, rfl, rfl⟩

lemma renderEntryUpd_mid : MidUpd renderEntryUpd := ⟨rfl, by norm_num [renderEntryUpd]⟩

lemma errorUpd_errShape (e : String) : ErrShape (errorUpd e) := ⟨rfl, rfl, rfl⟩

lemma finishUpd_finishShape (p s a : String) : FinishShape (finishUpd p s a) :=
  ⟨rfl, rfl, rfl⟩

/-- Every update script `runPipeline` can issue has the good shape:
`running`, then mid-pipeline updates, then a terminal section. -/
lemma runPipeline_good (env : Env)
    (jobId videoPath langFrom langTo voiceMode quality : String) :
    GoodScript (runPipeline env jobId videoPath langFrom langTo voiceMode quality) := by
  unfold runPipeline
  rcases hx : (extractAudio env videoPath jobId).result with e | audioPath
  · refine ⟨(extractAudio env videoPath jobId).updates, [errorUpd e], by simp [hx], ?_, ?_⟩
    · exact extractAudio_mid env videoPath jobId
    · exact Or.inl ⟨_, rfl, errorUpd_errShape e⟩
  · set s3r := (transcribeAudio env audioPath langFrom jobId).result with hs3
    set s4r := (translateText env s3r langFrom langTo).result with hs4
    set s5r := (synthesizeVoice env s4r audioPath langTo voiceMode jobId).result with hs5
    rcases hl : (runLipSync env videoPath s5r quality jobId).result with e | lipsyncPath
    · refine ⟨(extractAudio env videoPath jobId).updates ++
        (extractFrames env videoPath jobId).updates ++
        (transcribeAudio env audioPath langFrom jobId).updates ++
        (translateText env s3r langFrom langTo).updates ++
        (synthesizeVoice env s4r audioPath langTo voiceMode jobId).updates ++
        (runLipSync env videoPath s5r quality jobId).updates,
        [errorUpd e], by simp [hx, hl, List.append_assoc], ?_, ?_⟩
      · intro u hu
        simp only [List.mem_append] at hu
        rcases hu with ((((h | h) | h) | h) | h) | h
        · exact extractAudio_mid env videoPath jobId u h
        · exact extractFrames_mid env videoPath jobId u h
        · exact transcribeAudio_mid env audioPath langFrom jobId u h
        · exact translateText_mid env s3r langFrom langTo u h
        · exact synthesizeVoice_mid env s4r audioPath langTo voiceMode jobId u h
        · exact runLipSync_mid env videoPath s5r quality jobId u h
      · exact Or.inl ⟨_, rfl, errorUpd_errShape e⟩
    · rcases finalRender_shape env lipsyncPath jobId with ⟨e, hre, hru⟩ | ⟨p, d, hrp, hru, hd⟩
      · refine ⟨(extractAudio env videoPath jobId).updates ++
          (extractFrames env videoPath jobId).updates ++
          (transcribeAudio env audioPath langFrom jobId).updates ++
          (translateText env s3r langFrom langTo).updates ++
          (synthesizeVoice env s4r audioPath langTo voiceMode jobId).updates ++
          (runLipSync env videoPath s5r quality jobId).updates ++ [renderEntryUpd],
          [errorUpd e], by simp [hx, hl, hre, hru, List.append_assoc], ?_, ?_⟩
        · intro u hu
          simp only [List.mem_append, List.mem_singleton] at hu
          rcases hu with (((((h | h) | h) | h) | h) | h) | h
          · exact extractAudio_mid env videoPath jobId u h
          · exact extractFrames_mid env videoPath jobId u h
          · exact transcribeAudio_mid env audioPath langFrom jobId u h
          · exact translateText_mid env s3r langFrom langTo u h
          · exact synthesizeVoice_mid env s4r audioPath langTo voiceMode jobId u h
          · exact runLipSync_mid env videoPath s5r quality jobId u h
          · exact h ▸ renderEntryUpd_mid
        · exact Or.inl ⟨_, rfl, errorUpd_errShape e⟩
      · refine ⟨(extractAudio env videoPath jobId).updates ++
          (extractFrames env videoPath jobId).updates ++
          (transcribeAudio env audioPath langFrom jobId).updates ++
          (translateText env s3r langFrom langTo).updates ++
          (synthesizeVoice env s4r audioPath langTo voiceMode jobId).updates ++
          (runLipSync env videoPath s5r quality jobId).updates ++ [renderEntryUpd],
          [d, finishUpd p (generateSrt s4r jobId).1 s5r],
          by simp [hx, hl, hrp, hru, List.append_assoc], ?_, ?_⟩
        · intro u hu
          simp only [List.mem_append, List.mem_singleton] at hu
          rcases hu with (((((h | h) | h) | h) | h) | h) | h
          · exact extractAudio_mid env videoPath jobId u h
          · exact extractFrames_mid env videoPath jobId u h
          · exact transcribeAudio_mid env audioPath langFrom jobId u h
          · exact translateText_mid env s3r langFrom langTo u h
          · exact synthesizeVoice_mid env s4r audioPath langTo voiceMode jobId u h
          · exact runLipSync_mid env videoPath s5r quality jobId u h
          · exact h ▸ renderEntryUpd_mid
        · exact Or.inr ⟨d, _, rfl, hd, finishUpd_finishShape _ _ _⟩

/-! ### Invariants of the job-record trace -/

lemma iff_100_done_of_not_terminal (j : Job) (hs : j.status ≠ .done)
    (hp : j.progress ≠ 100) : (j.progress = 100 ↔ j.status = .done) :=
  ⟨fun h => (hp h).elim, fun h => (hs h).elim⟩

lemma stepJob_status (j : Job) (u : JobUpdate) :
    (stepJob j u).status = u.status.getD j.status := rfl

lemma stepJob_progress (j : Job) (u : JobUpdate) :
    (stepJob j u).progress = u.progress.getD j.progress := rfl

lemma stepJob_stage (j : Job) (u : JobUpdate) :
    (stepJob j u).stage = match u.stage with
      | some s => some s
      | none => j.stage := rfl

lemma stepJob_mid (j : Job) (u : JobUpdate) (hs : j.status = .running)
    (hp : j.progress < 100) (hu : MidUpd u) :
    (stepJob j u).status = .running ∧ (stepJob j u).progress < 100 := by
  obtain ⟨h1, h2⟩ := hu
  refine ⟨?_, ?_⟩
  · rw [stepJob_status, h1, Option.getD_none, hs]
  · rw [stepJob_progress]
    cases h : u.progress with
    | none => simpa using hp
    | some p =>
        rw [h] at h2
        simpa using h2

/-- All states reached while executing the mid-pipeline updates followed
by a good terminal section satisfy the progress/status iff. -/
lemma trace_iff_inv :
    ∀ (mids tail : List JobUpdate) (j : Job),
      (∀ u ∈ mids, MidUpd u) → GoodTail tail →
      j.status = .running → j.progress < 100 →
      ∀ k ∈ List.scanl stepJob j (mids ++ tail),
        (k.progress = 100 ↔ k.status = .done) := by
  intro mids
  induction mids with
  | nil =>
    intro tail j _ ht hs hp k hk
    rcases ht with ⟨u, rfl, hu⟩ | ⟨u, v, rfl, hu, hv⟩
    · simp only [List.nil_append, List.scanl_cons, List.singleton_append, List.scanl_nil,
        List.mem_cons, List.mem_singleton, List.cons_append, List.nil_append] at hk
      rcases hk with rfl | rfl | h
      · exact iff_100_done_of_not_terminal _ (by simp [hs]) (by omega)
      · refine iff_100_done_of_not_terminal _ ?_ ?_
        · rw [stepJob_status, hu.1, Option.getD_some]
          simp
        · rw [stepJob_progress, hu.2.1, Option.getD_none]
          omega
      · cases h
    · simp only [List.nil_append, List.scanl_cons, List.singleton_append, List.scanl_nil,
        List.mem_cons, List.mem_singleton] at hk
      rcases hk with rfl | rfl | rfl | h
      · exact iff_100_done_of_not_terminal _ (by simp [hs]) (by omega)
      · constructor
        · intro _
          rw [stepJob_status, hu.1, Option.getD_some]
        · intro _
          rw [stepJob_progress, hu.2.1, Option.getD_some]
      · constructor
        · intro _
          rw [stepJob_status, hv.1, Option.getD_some]
        · intro _
          rw [stepJob_progress, hv.2.1, Option.getD_some]
      · cases h
  | cons u us ih =>
    intro tail j hm ht hs hp k hk
    simp only [List.cons_append, List.scanl_cons, List.singleton_append, List.nil_append, List.mem_cons] at hk
    rcases hk with rfl | hk2
    · exact iff_100_done_of_not_terminal _ (by simp [hs]) (by omega)
    · obtain ⟨hs2, hp2⟩ := stepJob_mid j u hs hp (hm u (by simp))
      exact ih tail (stepJob j u) (fun w hw => hm w (by simp [hw])) ht hs2 hp2 k hk2

lemma scanl_head (f : Job → JobUpdate → Job) (b : Job) (l : List JobUpdate) :
    (List.scanl f b l).head? = some b := by
  cases l <;> simp [List.scanl]

/-- The status/stage chain along the mid-pipeline updates and the
terminal section. -/
lemma trace_chain :
    ∀ (mids tail : List JobUpdate) (j : Job),
      (∀ u ∈ mids, MidUpd u) → GoodTail tail → j.status = .running →
      List.Chain' statusStep (List.scanl stepJob j (mids ++ tail)) := by
  intro mids
  induction mids with
  | nil =>
    intro tail j _ ht hs
    rcases ht with ⟨u, rfl, hu⟩ | ⟨u, v, rfl, hu, hv⟩
    · simp only [List.nil_append, List.scanl_cons, List.singleton_append, List.scanl_nil]
      refine List.chain'_cons.mpr ⟨?_, List.chain'_singleton _⟩
      constructor
      · refine Or.inr (Or.inr ⟨hs, Or.inr ?_⟩)
        rw [stepJob_status, hu.1, Option.getD_some]
      · intro h
        rw [hs] at h
        rcases h with h | h <;> cases h
    · simp only [List.nil_append, List.scanl_cons, List.singleton_append, List.scanl_nil]
      refine List.chain'_cons.mpr ⟨?_, List.chain'_cons.mpr ⟨?_, List.chain'_singleton _⟩⟩
      · constructor
        · refine Or.inr (Or.inr ⟨hs, Or.inl ?_⟩)
          rw [stepJob_status, hu.1, Option.getD_some]
        · intro h
          rw [hs] at h
          rcases h with h | h <;> cases h
      · constructor
        · left
          rw [stepJob_status (stepJob j u) v, hv.1, Option.getD_some,
            stepJob_status j u, hu.1, Option.getD_some]
        · intro _
          constructor
          · rw [stepJob_status (stepJob j u) v, hv.1, Option.getD_some,
              stepJob_status j u, hu.1, Option.getD_some]
          · rw [stepJob_stage (stepJob j u) v, hv.2.2]
  | cons u us ih =>
    intro tail j hm ht hs
    simp only [List.cons_append, List.scanl_cons, List.singleton_append, List.nil_append]
    have hmu := hm u (by simp)
    have hs2 : (stepJob j u).status = .running := by
      rw [stepJob_status, hmu.1, Option.getD_none, hs]
    refine List.chain'_cons'.mpr ⟨?_, ih tail (stepJob j u)
      (fun w hw => hm w (by simp [hw])) ht hs2⟩
    intro y hy
    rw [scanl_head] at hy
    cases hy
    constructor
    · left
      rw [hs2, hs]
    · intro h
      rw [hs] at h
      rcases h with h | h <;> cases h

lemma fmtSrtTime_zero : fmtSrtTime 0 = "00:00:00,000" := by
  unfold fmtSrtTime jsRound jsMod jsTrunc jsFloor
  norm_num
  decide

lemma fmtSrtTime_five_halves : fmtSrtTime (5/2) = "00:00:02,500" := by
  unfold fmtSrtTime jsRound jsMod jsTrunc jsFloor
  norm_num
  norm_num [show Int.fdiv 1 1440 = 0 by decide, show Int.fdiv 1 24 = 0 by decide,
    show Int.fdiv 5 2 = 2 by decide]
  decide

lemma fmtSrtTime_five : fmtSrtTime 5 = "00:00:05,000" := by
  unfold fmtSrtTime jsRound jsMod jsTrunc jsFloor
  norm_num
  norm_num [show Int.fdiv 1 720 = 0 by decide, show Int.fdiv 1 12 = 0 by decide,
    show Int.fdiv 5 1 = 5 by decide]
  decide

/-! ### Claim theorems -/

/-- Claim C5: whenever no translation provider is configured (no
LibreTranslate URL and no DeepL key in the environment), `translateText`
returns the transcript with `translatedText` equal to
`"[Translated to <target>]: <original text>"`, timing structure
preserved. -/
theorem translate_placeholder_when_no_provider (env : Env) (tr : Transcript)
    (fromLang toLang : String) (h1 : env.libreUrl = none) (h2 : env.deeplKey = none) :
    (translateText env tr fromLang toLang).result =
      { text := tr.text, segments := tr.segments
        translatedText := some ("[Translated to " ++ toLang ++ "]: " ++ tr.text) } := by
  simp [translateText, h1, h2]

/-- Witness for C5 at a concrete environment and transcript. -/
theorem translate_placeholder_when_no_provider_witness :
    (translateText envAllOk getMockTranscript "en" "es").result =
      { text := getMockTranscript.text, segments := getMockTranscript.segments
        translatedText :=
          some ("[Translated to " ++ "es" ++ "]: " ++ getMockTranscript.text) } :=
  translate_placeholder_when_no_provider envAllOk getMockTranscript "en" "es" rfl rfl

/-- Claim C6: for the translated segment list
`[{start: 0.0, end: 2.5, text: "A"}, {start: 2.5, end: 5.0, text: "B"}]`
the generated subtitle content is exactly the two numbered cues
`1 / 00:00:00,000 --> 00:00:02,500 / A` and
`2 / 00:00:02,500 --> 00:00:05,000 / B`, each followed by its text
line. -/
theorem generateSrt_two_segments (t : Translated)
    (h : t.segments = some [{ start := 0, stop := 5/2, text := "A" },
                            { start := 5/2, stop := 5, text := "B" }]) :
    generateSrtContent t =
      "1\n00:00:00,000 --> 00:00:02,500\nA\n\n2\n00:00:02,500 --> 00:00:05,000\nB\n" := by
  simp only [generateSrtContent, h, Option.getD_some, List.mapIdx_cons,
    List.mapIdx_singleton]
  rw [fmtSrtTime_zero, fmtSrtTime_five_halves, fmtSrtTime_five]
  rfl

/-- Witness for C6 at a concrete translated transcript. -/
theorem generateSrt_two_segments_witness :
    generateSrtContent
      { text := "", translatedText := none
        segments := some [{ start := 0, stop := 5/2, text := "A" },
                          { start := 5/2, stop := 5, text := "B" }] } =
      "1\n00:00:00,000 --> 00:00:02,500\nA\n\n2\n00:00:02,500 --> 00:00:05,000\nB\n" :=
  generateSrt_two_segments _ rfl

/-- Claim C10: when `segments` is absent, `generateSrt` produces exactly
one cue numbered 1 spanning `00:00:00,000 --> 00:00:05,000` whose text is
`translatedText`, or the empty string when that is also absent. -/
theorem generateSrt_default_single_cue (t : Translated) (h : t.segments = none) :
    generateSrtContent t =
      "1\n00:00:00,000 --> 00:00:05,000\n" ++ t.translatedText.getD "" ++ "\n" := by
  simp only [generateSrtContent, h, Option.getD_none, List.mapIdx_singleton]
  rw [fmtSrtTime_zero, fmtSrtTime_five]
  rfl

/-- Witness for C10 at a concrete translated transcript with no
segments. -/
theorem generateSrt_default_single_cue_witness :
    generateSrtContent { text := "", segments := none, translatedText := some "Hola" } =
      "1\n00:00:00,000 --> 00:00:05,000\n" ++ "Hola" ++ "\n" :=
  generateSrt_default_single_cue
    { text := "", segments := none, translatedText := some "Hola" } rfl

/-- Claim C2: at every point of a job's lifetime — from creation through
every update its pipeline run issues, on every environment — the job's
`progress` equals exactly 100 if and only if its `status` is `done`. -/
theorem progress_100_iff_status_done (env : Env)
    (jobId videoPath langFrom langTo voiceMode quality : String)
    (m : JobMeta) (t0 : Nat) :
    ∀ k ∈ jobTrace env jobId videoPath langFrom langTo voiceMode quality m t0,
      (k.progress = 100 ↔ k.status = .done) := by
  obtain ⟨mids, tail, heq, hm, ht⟩ :=
    runPipeline_good env jobId videoPath langFrom langTo voiceMode quality
  rw [jobTrace, heq]
  intro k hk
  simp only [List.scanl_cons, List.singleton_append, List.nil_append,
    List.mem_cons] at hk
  rcases hk with rfl | hk2
  · exact iff_100_done_of_not_terminal _ (by simp [createJob]) (by simp [createJob])
  · refine trace_iff_inv mids tail _ hm ht ?_ ?_ k hk2
    · rw [stepJob_status]
      rfl
    · show (0:Nat) < 100
      norm_num

/-- Witness for C2 at the freshly created job of a concrete run. -/
theorem progress_100_iff_status_done_witness :
    ((createJob "job1" {} 0).progress = 100 ↔
      (createJob "job1" {} 0).status = Status.done) :=
  progress_100_iff_status_done envAllOk "job1" "v.mp4" "en" "es" "clone" "balanced" {} 0
    (createJob "job1" {} 0)
    (List.mem_of_mem_head? (by
      rw [show (jobTrace envAllOk "job1" "v.mp4" "en" "es" "clone" "balanced" {} 0).head?
        = some (createJob "job1" {} 0) from scanl_head _ _ _]
      rfl))

/-- Claim C3: along every job trace the status follows the machine
`queued → running → {done, error}` step by step and never regresses; once
the status is terminal, no later update changes `status` or `stage`. -/
theorem status_machine_never_regresses (env : Env)
    (jobId videoPath langFrom langTo voiceMode quality : String)
    (m : JobMeta) (t0 : Nat) :
    List.Chain' statusStep
      (jobTrace env jobId videoPath langFrom langTo voiceMode quality m t0) := by
  obtain ⟨mids, tail, heq, hm, ht⟩ :=
    runPipeline_good env jobId videoPath langFrom langTo voiceMode quality
  rw [jobTrace, heq]
  simp only [List.scanl_cons, List.singleton_append, List.nil_append]
  refine List.chain'_cons'.mpr ⟨?_, trace_chain mids tail _ hm ht (by
    rw [stepJob_status]
    rfl)⟩
  intro y hy
  rw [scanl_head] at hy
  cases hy
  constructor
  · exact Or.inr (Or.inl ⟨rfl, rfl⟩)
  · intro h
    rcases h with h | h <;> exact Status.noConfusion h

set_option maxHeartbeats 1000000 in
/-- Claim C1 is refuted by the code: on the path where the Wav2Lip model
checkpoint is absent and everything else succeeds, `runLipSync` writes
progress 88 and its `mergeAudioOnly` fallback then writes progress 86, so
the sequence of progress values is not monotonically non-decreasing. -/
theorem lipsync_model_missing_progress_regression :
    ¬ List.Chain' (fun a b => a ≤ b)
      ((jobTrace envModelMissing "job1" "v.mp4" "en" "es" "clone" "balanced" {} 0).map
        Job.progress) := by
  have h : (jobTrace envModelMissing "job1" "v.mp4" "en" "es" "clone" "balanced" {} 0).map
      Job.progress =
      [0, 0, 8, 15, 18, 28, 40, 48, 58, 65, 75, 82, 88, 86, 90, 94, 100, 100] := by
    rfl
  rw [h]
  intro hch
  simp only [List.chain'_cons, List.chain'_singleton] at hch
  omega

/-- Claim C4: when audio extraction fails (non-zero exit or launch
failure), the pipeline aborts immediately after it — the whole script is
`running`, the extraction updates, then the `error` update — and the
final job state is `status = error` with the failure's message verbatim
and an empty `outputs` mapping. -/
theorem extract_failure_aborts_pipeline (env : Env)
    (jobId videoPath langFrom langTo voiceMode quality : String)
    (m : JobMeta) (t0 : Nat) (msg : String)
    (h : (extractAudio env videoPath jobId).result = .error msg) :
    runPipeline env jobId videoPath langFrom langTo voiceMode quality =
      runningUpd :: ((extractAudio env videoPath jobId).updates ++ [errorUpd msg]) ∧
    (finalJobState env jobId videoPath langFrom langTo voiceMode quality m t0).status
      = .error ∧
    (finalJobState env jobId videoPath langFrom langTo voiceMode quality m t0).message
      = msg ∧
    (finalJobState env jobId videoPath langFrom langTo voiceMode quality m t0).outputs
      = { video := none, srt := none, audio := none } := by
  have hupd : (extractAudio env videoPath jobId).updates = [extractEntryUpd] := by
    by_cases h1 : env.extractLaunches <;> by_cases h2 : env.extractExit = 0 <;>
      simp [extractAudio, h1, h2] at h ⊢
  have hscript : runPipeline env jobId videoPath langFrom langTo voiceMode quality =
      runningUpd :: ((extractAudio env videoPath jobId).updates ++ [errorUpd msg]) := by
    simp only [runPipeline, h]
  refine ⟨hscript, ?_, ?_, ?_⟩ <;>
    simp [finalJobState, hscript, hupd, stepJob, applyUpdate, errorUpd,
      extractEntryUpd, runningUpd, createJob]

/-- Witness for C4: a run where the audio-extraction ffmpeg cannot be
launched. -/
theorem extract_failure_aborts_pipeline_witness :
    runPipeline envNoFfmpegExtract "job1" "v.mp4" "en" "es" "clone" "balanced" =
      runningUpd :: ((extractAudio envNoFfmpegExtract "v.mp4" "job1").updates ++
        [errorUpd "ffmpeg not found — please install ffmpeg"]) ∧
    (finalJobState envNoFfmpegExtract "job1" "v.mp4" "en" "es" "clone" "balanced"
      {} 0).status = .error ∧
    (finalJobState envNoFfmpegExtract "job1" "v.mp4" "en" "es" "clone" "balanced"
      {} 0).message = "ffmpeg not found — please install ffmpeg" ∧
    (finalJobState envNoFfmpegExtract "job1" "v.mp4" "en" "es" "clone" "balanced"
      {} 0).outputs = { video := none, srt := none, audio := none } :=
  extract_failure_aborts_pipeline envNoFfmpegExtract "job1" "v.mp4" "en" "es"
    "clone" "balanced" {} 0 "ffmpeg not found — please install ffmpeg" rfl

lemma updateJob_unknown : ∀ (store : Store) (id : String) (u : JobUpdate) (now : Nat),
    lookupJob store id = none → updateJob store id u now = store := by
  intro store
  induction store with
  | nil => intro id u now _; rfl
  | cons p rest ih =>
    intro id u now h
    by_cases hp : p.1 = id
    · simp [lookupJob, hp] at h
    · simp only [lookupJob, hp, if_neg, ite_false] at h
      simp [updateJob, hp, ih id u now h]

lemma updateJob_found : ∀ (store : Store) (id : String) (u : JobUpdate) (now : Nat)
    (j : Job), lookupJob store id = some j →
    lookupJob (updateJob store id u now) id = some (applyUpdate j u now) := by
  intro store
  induction store with
  | nil => intro id u now j h; simp [lookupJob] at h
  | cons p rest ih =>
    intro id u now j h
    by_cases hp : p.1 = id
    · simp only [lookupJob, hp, if_pos, ite_true, Option.some.injEq] at h
      subst h
      simp [updateJob, lookupJob, hp]
    · simp only [lookupJob, hp, ite_false] at h
      simp only [updateJob, hp, ite_false, lookupJob]
      exact ih id u now j h

lemma updateJob_frame : ∀ (store : Store) (id : String) (u : JobUpdate) (now : Nat)
    (id2 : String), id2 ≠ id →
    lookupJob (updateJob store id u now) id2 = lookupJob store id2 := by
  intro store
  induction store with
  | nil => intro id u now id2 _; rfl
  | cons p rest ih =>
    intro id u now id2 hne
    by_cases hp : p.1 = id
    · have hp2 : ¬ p.1 = id2 := by
        rw [hp]
        exact fun hc => hne hc.symm
      simp [updateJob, lookupJob, hp, hp2, show ¬ id = id2 from fun hc => hne hc.symm]
    · by_cases hq : p.1 = id2
      · simp [updateJob, lookupJob, hp, hq, hne]
      · simp only [updateJob, hp, ite_false, lookupJob, hq]
        exact ih id u now id2 hne

/-- Claim C7: `updateJob` is a no-op for an unknown id; for a known id it
merges exactly the fields present in the partial update (absent fields
keep the stored value, `id`, `meta` and `createdAt` are untouched),
refreshes `updatedAt`, and leaves every other job in the store
unchanged. -/
theorem updateJob_merges_exactly_given_fields (store : Store) (id : String)
    (u : JobUpdate) (now : Nat) :
    (lookupJob store id = none → updateJob store id u now = store) ∧
    (∀ j, lookupJob store id = some j →
      lookupJob (updateJob store id u now) id = some (applyUpdate j u now)) ∧
    (∀ id2, id2 ≠ id →
      lookupJob (updateJob store id u now) id2 = lookupJob store id2) ∧
    (∀ j, (applyUpdate j u now).updatedAt = now ∧
      (applyUpdate j u now).id = j.id ∧
      (applyUpdate j u now).meta = j.meta ∧
      (applyUpdate j u now).createdAt = j.createdAt ∧
      (applyUpdate j u now).status = u.status.getD j.status ∧
      (applyUpdate j u now).stage = (match u.stage with
        | some s => some s
        | none => j.stage) ∧
      (applyUpdate j u now).progress = u.progress.getD j.progress ∧
      (applyUpdate j u now).message = u.message.getD j.message ∧
      (applyUpdate j u now).outputs = u.outputs.getD j.outputs) :=
  ⟨updateJob_unknown store id u now,
   fun j => updateJob_found store id u now j,
   fun id2 h => updateJob_frame store id u now id2 h,
   fun _ => ⟨rfl, rfl, rfl, rfl, rfl, rfl, rfl, rfl, rfl⟩⟩

/-- Witness for C7: no-op on the empty store, merge on a one-job store,
and frame on an unrelated id. -/
theorem updateJob_merges_exactly_given_fields_witness :
    updateJob [] "a" demoUpd 7 = [] ∧
    lookupJob (updateJob demoStore "a" demoUpd 7) "a" =
      some (applyUpdate demoJobA demoUpd 7) ∧
    lookupJob (updateJob demoStore "a" demoUpd 7) "b" = lookupJob demoStore "b" :=
  ⟨(updateJob_merges_exactly_given_fields [] "a" demoUpd 7).1 rfl,
   (updateJob_merges_exactly_given_fields demoStore "a" demoUpd 7).2.1 demoJobA rfl,
   (updateJob_merges_exactly_given_fields demoStore "a" demoUpd 7).2.2.1 "b"
     (by decide)⟩

/-- Claim C8: if the pipeline reaches the render stage (extraction
succeeded and lip-sync resolved with an intermediate file `p`) and the
final-render ffmpeg cannot be launched, the job still finishes with
`status = done`, `progress = 100`, and `p` itself recorded as the `video`
deliverable. -/
theorem render_launch_failure_still_done (env : Env)
    (jobId videoPath langFrom langTo voiceMode quality : String)
    (m : JobMeta) (t0 : Nat) (p : String)
    (h1 : env.extractLaunches = true) (h2 : env.extractExit = 0)
    (h3 : (runLipSync env videoPath
      (pipelineDubbedAudio env jobId langFrom langTo voiceMode) quality jobId).result
      = .ok p)
    (h4 : env.renderLaunches = false) :
    (finalJobState env jobId videoPath langFrom langTo voiceMode quality m t0).status
      = .done ∧
    (finalJobState env jobId videoPath langFrom langTo voiceMode quality m t0).progress
      = 100 ∧
    (finalJobState env jobId videoPath langFrom langTo voiceMode quality m t0).outputs.video
      = some p := by
  have hx : (extractAudio env videoPath jobId).result =
      .ok ("temp/" ++ jobId ++ "_audio.wav") := by
    simp [extractAudio, h1, h2]
  have h3' : (runLipSync env videoPath
      ((synthesizeVoice env
        (translateText env
          (transcribeAudio env ("temp/" ++ jobId ++ "_audio.wav") langFrom jobId).result
          langFrom langTo).result
        ("temp/" ++ jobId ++ "_audio.wav") langTo voiceMode jobId).result)
      quality jobId).result = .ok p := by
    simpa [pipelineDubbedAudio, pipelineAudioPath] using h3
  have hr : finalRender env p jobId =
      { updates := [renderEntryUpd, renderFallbackUpd p], result := .ok p } := by
    simp [finalRender, h4]
  refine ⟨?_, ?_, ?_⟩ <;>
    simp [finalJobState, runPipeline, hx, h3', hr, List.foldl_append,
      stepJob, applyUpdate, finishUpd]

/-- Witness for C8: a run where only the final-render ffmpeg is
unavailable; the lip-sync intermediate becomes the deliverable. -/
theorem render_launch_failure_still_done_witness :
    (finalJobState envNoRender "job1" "v.mp4" "en" "es" "clone" "balanced" {} 0).status
      = .done ∧
    (finalJobState envNoRender "job1" "v.mp4" "en" "es" "clone" "balanced" {} 0).progress
      = 100 ∧
    (finalJobState envNoRender "job1" "v.mp4" "en" "es" "clone" "balanced"
      {} 0).outputs.video = some ("temp/" ++ "job1" ++ "_lipsync.mp4") :=
  render_launch_failure_still_done envNoRender "job1" "v.mp4" "en" "es" "clone"
    "balanced" {} 0 ("temp/" ++ "job1" ++ "_lipsync.mp4") rfl rfl rfl rfl

lemma storeDelete_subset : ∀ (store : Store) (id : String) (p : String × Job),
    p ∈ storeDelete store id → p ∈ store := by
  intro store
  induction store with
  | nil => intro id p h; simp [storeDelete] at h
  | cons q rest ih =>
    intro id p h
    by_cases hq : q.1 = id
    · simp only [storeDelete, hq, ite_true] at h
      exact List.mem_cons_of_mem q h
    · simp only [storeDelete, hq, ite_false, List.mem_cons] at h
      rcases h with rfl | h
      · exact List.mem_cons_self p rest
      · exact List.mem_cons_of_mem q (ih id p h)

lemma storeDelete_not_mem : ∀ (store : Store) (id : String),
    (store.map Prod.fst).Nodup →
    ∀ p ∈ storeDelete store id, p.1 ≠ id := by
  intro store
  induction store with
  | nil => intro id _ p h; simp [storeDelete] at h
  | cons q rest ih =>
    intro id hnd p h
    simp only [List.map_cons, List.nodup_cons] at hnd
    by_cases hq : q.1 = id
    · simp only [storeDelete, hq, ite_true] at h
      intro hc
      apply hnd.1
      rw [hq, ← hc]
      exact List.mem_map_of_mem Prod.fst h
    · simp only [storeDelete, hq, ite_false, List.mem_cons] at h
      rcases h with rfl | h
      · exact hq
      · exact ih id hnd.2 p h

lemma tryUnlinkE_isOk (fs : Fs) (p : String) : ∃ f2, tryUnlinkE fs p = .ok f2 := by
  by_cases hp : p ∈ fs <;> simp [tryUnlinkE, unlinkSync, hp]

lemma cleanupTempE_isOk (fs : Fs) (jobId : String) :
    ∃ f2, cleanupTempE fs jobId = .ok f2 := by
  obtain ⟨f1, e1⟩ := tryUnlinkE_isOk fs ("temp/" ++ jobId ++ "_audio.wav")
  obtain ⟨f2, e2⟩ := tryUnlinkE_isOk f1 ("temp/" ++ jobId ++ "_dubbed.wav")
  obtain ⟨f3, e3⟩ := tryUnlinkE_isOk f2 ("temp/" ++ jobId ++ "_lipsync.mp4")
  obtain ⟨f4, e4⟩ := tryUnlinkE_isOk f3 ("temp/" ++ jobId ++ "_frames")
  exact ⟨f4, by simp only [cleanupTempE, e1, e2, e3, e4]⟩

/-- Claim C9: deleting an unknown job id yields a not-found result and
leaves the store (hence its job count) unchanged; deleting a known id
reports success and removes that job from the subsequent `list()` output;
and the artifact cleanup returns normally on every filesystem state,
including one where the artifacts are already absent. -/
theorem delete_unknown_not_found_known_removes (store : Store) (fs : Fs)
    (jobId : String) (hwf : ∀ p ∈ store, p.2.id = p.1)
    (hnd : (store.map Prod.fst).Nodup) :
    (lookupJob store jobId = none →
      deleteDub store fs jobId = (store, fs, .notFound) ∧
      storeCount (deleteDub store fs jobId).1 = storeCount store) ∧
    (∀ j, lookupJob store jobId = some j →
      (deleteDub store fs jobId).2.2 = .deleted ∧
      ∀ s ∈ listJobs (deleteDub store fs jobId).1, s.id ≠ jobId) ∧
    (∃ fs2, cleanupTempE fs jobId = .ok fs2) := by
  refine ⟨?_, ?_, cleanupTempE_isOk fs jobId⟩
  · intro h
    simp [deleteDub, h]
  · intro j h
    refine ⟨by simp [deleteDub, h], ?_⟩
    intro s hs
    simp only [deleteDub, h, listJobs, List.mem_map] at hs
    obtain ⟨p, hp, rfl⟩ := hs
    have hp2 : p ∈ storeDelete store jobId := hp
    have := storeDelete_not_mem store jobId hnd p hp2
    rw [hwf p (storeDelete_subset store jobId p hp2)]
    exact this

/-- Witness for C9: deleting the only job of a one-job store on an empty
filesystem (all artifacts already absent), and the cleanup stays
exception-free. -/
theorem delete_unknown_not_found_known_removes_witness :
    (deleteDub demoStore [] "a").2.2 = DeleteResult.deleted ∧
    (∃ fs2, cleanupTempE [] "a" = .ok fs2) :=
  ⟨((delete_unknown_not_found_known_removes demoStore [] "a" (by decide)
      (by decide)).2.1 demoJobA rfl).1,
   (delete_unknown_not_found_known_removes demoStore [] "a" (by decide)
      (by decide)).2.2⟩

end SyncLab
